import Mathlib

/-!
Verification development for the filestore bot (src/bot.py).

The bot keeps four sqlite relations (files, batches, items, admins) plus a
key-value meta relation, and two in-memory per-user session dictionaries
(filestore_mode, batch_mode).  We embed each relation as a list of rows in
insertion order (sqlite rowid order), and each handler as a pure function on
an explicit state.  External effects are parameters:
  * the result of forwarding a message to the archive group (`try_forward`)
    is an `Option Nat` argument (the archived message id, or `none` on
    failure after the retry budget);
  * the randomness consumed by `gen_code` is a draw function `Nat → Nat`;
  * replies and replay calls made to the chat surface are returned as data
    (`Reply`, `RestoreAction`) rather than performed.
The sqlite PRIMARY KEY constraint on files.code and batches.code is not
itself modelled (inserts are plain appends, as executed by the handlers);
theorems whose truth depends on key uniqueness carry it as an explicit
hypothesis.
-/

/-- One row of the `files` relation:
`files(code PRIMARY KEY, msg_id, owner, created_at, caption, file_type)`. -/
structure FileRow where
  code : String
  msg_id : Nat
  owner : Nat
  created_at : Int
  caption : String
  file_type : String
deriving DecidableEq, Repr

/-- One row of the `batches` relation:
`batches(code PRIMARY KEY, owner, created_at, item_count)`. -/
structure BatchRow where
  code : String
  owner : Nat
  created_at : Int
  item_count : Nat
deriving DecidableEq, Repr

/-- One row of the `items` relation: `items(code, msg_id, owner)`.
List position = sqlite rowid order (insertion order). -/
structure ItemRow where
  code : String
  msg_id : Nat
  owner : Nat
deriving DecidableEq, Repr

/-- The durable database: the four content relations plus the `meta`
key-value relation used by the auto-delete loop. -/
structure DB where
  files : List FileRow
  batches : List BatchRow
  items : List ItemRow
  admins : List Nat
  meta : List (String × String)
deriving DecidableEq, Repr

/-- Full bot state: the database plus the two in-memory session dicts
`filestore_mode : user_id -> True` (modelled as the list of keys) and
`batch_mode : user_id -> [group_msg_id, ...]` (association list). -/
structure BotState where
  db : DB
  filestore_mode : List Nat
  batch_mode : List (Nat × List Nat)
deriving DecidableEq, Repr

/-- An incoming Telegram message, restricted to the fields the handlers
inspect: `text`, `caption`, and the presence flags consulted by
`detect_file_type`. -/
structure Msg where
  text : Option String
  caption : Option String
  document : Bool
  photo : Bool
  video : Bool
  audio : Bool
  voice : Bool
  sticker : Bool
  animation : Bool
deriving DecidableEq, Repr

/-- Replies the handlers send back to the invoking chat, as data. -/
inductive Reply where
  | storeFailed
  | stored (code : String)
  | sendSinglePrompt
  | adminsOnly
  | noActiveBatch
  | batchEmpty
  | batchSaved (code : String)
  | usageSetcode
  | codeInUse
  | noRecentFile
  | codeUpdated (code : String)
  | usageAddadmin
  | addedAdmin (uid : Nat)
  | usageRemoveadmin
  | removedAdmin (uid : Nat)
deriving DecidableEq, Repr

/-- Calls issued by the restore path, as data: the count announcement for a
batch, each forward-to-destination call, the fixed 1.5 s pause (recorded in
tenths of a second), and the two error replies. -/
inductive RestoreAction where
  | announceCount (n : Nat)
  | forwardToDest (mid : Nat)
  | sleepTenths (n : Nat)
  | replyRestoreFailed
  | replyInvalidLink
deriving DecidableEq, Repr

/-! ### Association-list helpers for the in-memory dicts -/

/-- `batch_mode[uid]` lookup (`uid in batch_mode` / `batch_mode[uid]`). -/
def lookupBatch : List (Nat × List Nat) → Nat → Option (List Nat)
  | [], _ => none
  | (k, v) :: rest, uid => if k = uid then some v else lookupBatch rest uid

/-- `batch_mode[uid] = v` (overwrite if present, insert otherwise). -/
def setBatch (m : List (Nat × List Nat)) (uid : Nat) (v : List Nat) :
    List (Nat × List Nat) :=
  if m.any (fun p => p.1 = uid) then
    m.map (fun p => if p.1 = uid then (uid, v) else p)
  else m ++ [(uid, v)]

/-- `batch_mode.pop(uid)`'s effect on the dict. -/
def eraseBatch (m : List (Nat × List Nat)) (uid : Nat) : List (Nat × List Nat) :=
  m.filter (fun p => p.1 != uid)

/-! ### Utilities (src/bot.py lines 109-131) -/

/-- `string.ascii_uppercase + string.digits`, the code alphabet. -/
def code_alphabet : List Char := "ABCDEFGHIJKLMNOPQRSTUVWXYZ0123456789".toList

/-- `gen_code(length=8)`: `length` independent uniform draws from the
36-character alphabet.  The randomness is the `draw` argument: draw `i`
selects `code_alphabet[draw i % 36]`.  Note the function performs no
registry lookup of any kind. -/
def gen_code (draw : Nat → Nat) (length : Nat := 8) : String :=
  String.mk ((List.range length).map (fun i => code_alphabet.getD (draw i % 36) 'A'))

/-- `is_admin(uid)`: membership in the `admins` relation. -/
def is_admin (db : DB) (uid : Nat) : Bool :=
  db.admins.contains uid

/-- `detect_file_type(msg)`: first populated field wins, else `"text"`. -/
def detect_file_type (m : Msg) : String :=
  if m.document then "document"
  else if m.photo then "photo"
  else if m.video then "video"
  else if m.audio then "audio"
  else if m.voice then "voice"
  else if m.sticker then "sticker"
  else if m.animation then "animation"
  else "text"

/-- Python `s.startswith("/")`: the first character is `/`. -/
def startsWithSlash (s : String) : Bool :=
  match s.toList with
  | c :: _ => c = '/'
  | [] => false

/-- The guard `msg.text and msg.text.startswith("/")` (an empty text is
falsy in Python, and also does not start with `/`). -/
def isCommandText (m : Msg) : Bool :=
  match m.text with
  | some t => startsWithSlash t
  | none => false

/-- The caption stored on single capture:
`msg.caption or (msg.text if msg.text else "")` — Python `or` falls through
on `None` and on the empty string. -/
def pyCaption (m : Msg) : String :=
  match m.caption with
  | some c => if c = "" then (m.text.getD "") else c
  | none => m.text.getD ""

/-- The `files` row inserted by the single-capture branch of
`message_handler` (lines 295-300). -/
def capturedRow (uid : Nat) (m : Msg) (mid : Nat) (fresh : String) (now : Int) :
    FileRow :=
  { code := fresh, msg_id := mid, owner := uid, created_at := now,
    caption := pyCaption m, file_type := detect_file_type m }

/-! ### message_handler (lines 279-312)

`fwd` is the result of `try_forward(msg, GROUP_ID)`, `fresh` the string
produced by `gen_code(8)`, `now` the value of `int(time())`. -/

def message_handler (st : BotState) (uid : Nat) (m : Msg) (fwd : Option Nat)
    (fresh : String) (now : Int) : BotState × Option Reply :=
  if isCommandText m then (st, none)
  else if st.filestore_mode.contains uid then
    let st1 : BotState :=
      { st with filestore_mode := st.filestore_mode.filter (fun x => x != uid) }
    match fwd with
    | none => (st1, some Reply.storeFailed)
    | some mid =>
      ({ st1 with db :=
          { st1.db with files := st1.db.files ++ [capturedRow uid m mid fresh now] } },
       some (Reply.stored fresh))
  else
    match lookupBatch st.batch_mode uid with
    | some its =>
      match fwd with
      | some mid =>
        ({ st with batch_mode := setBatch st.batch_mode uid (its ++ [mid]) }, none)
      | none => (st, none)
    | none => (st, none)

/-! ### Command handlers -/

/-- `cmd_filestore` (lines 182-185): set `filestore_mode[uid] = True`. -/
def cmd_filestore (st : BotState) (uid : Nat) : BotState × Reply :=
  ({ st with filestore_mode :=
      if st.filestore_mode.contains uid then st.filestore_mode
      else st.filestore_mode ++ [uid] },
   Reply.sendSinglePrompt)

/-- `cmd_batch` (lines 218-223): admin check, then `batch_mode[uid] = []`,
silently (no reply on success). -/
def cmd_batch (st : BotState) (uid : Nat) : BotState × Option Reply :=
  if is_admin st.db uid then
    ({ st with batch_mode := setBatch st.batch_mode uid [] }, none)
  else (st, some Reply.adminsOnly)

/-- `cmd_batchdone` (lines 225-240): pop the session first; empty list ⇒
"Batch is empty"; otherwise insert one `batches` row and one `items` row per
accumulated message id, in list order. -/
def cmd_batchdone (st : BotState) (uid : Nat) (fresh : String) (now : Int) :
    BotState × Reply :=
  if is_admin st.db uid then
    match lookupBatch st.batch_mode uid with
    | none => (st, Reply.noActiveBatch)
    | some its =>
      let st1 : BotState := { st with batch_mode := eraseBatch st.batch_mode uid }
      if its.isEmpty then (st1, Reply.batchEmpty)
      else
        ({ st1 with db :=
            { st1.db with
              batches := st1.db.batches ++ [⟨fresh, uid, now, its.length⟩],
              items := st1.db.items ++ its.map (fun mid => ⟨fresh, mid, uid⟩) } },
         Reply.batchSaved fresh)
  else (st, Reply.adminsOnly)

/-- `SELECT code FROM files WHERE owner=? ORDER BY created_at DESC LIMIT 1`
(line 209).  Ties on `created_at` are returned in an engine-chosen order;
we model the choice as the earliest inserted row among the maxima. -/
def mostRecentOwnedCode (db : DB) (uid : Nat) : Option String :=
  match db.files.filter (fun r => r.owner == uid) with
  | [] => none
  | f :: fs =>
    some ((fs.foldl (fun best r => if r.created_at > best.created_at then r else best) f).code)

/-- Python `str.strip()`: drop whitespace from both ends. -/
def pyStrip (s : String) : String :=
  String.mk (((s.toList.dropWhile Char.isWhitespace).reverse.dropWhile
    Char.isWhitespace).reverse)

/-- `cmd_setcode` (lines 199-215): usage check, collision check against both
`files` and `batches`, then `UPDATE files SET code=new WHERE code=old` on
the caller's most recent file. -/
def cmd_setcode (st : BotState) (uid : Nat) (args : List String) :
    BotState × Reply :=
  match args with
  | [] => (st, Reply.usageSetcode)
  | a :: _ =>
    let new_code := pyStrip a
    if st.db.files.any (fun r => r.code = new_code)
        || st.db.batches.any (fun b => b.code = new_code) then
      (st, Reply.codeInUse)
    else
      match mostRecentOwnedCode st.db uid with
      | none => (st, Reply.noRecentFile)
      | some old =>
        let files2 := st.db.files.map
          (fun r => if r.code = old then { r with code := new_code } else r)
        ({ st with db := { st.db with files := files2 } }, Reply.codeUpdated new_code)

/-- The startup seeding (lines 100-102): `INSERT OR IGNORE` of `OWNER_ID`
into `admins`, skipped when `OWNER_ID` is 0 (falsy). -/
def seed_owner (db : DB) (owner_id : Nat) : DB :=
  if owner_id = 0 then db
  else if db.admins.contains owner_id then db
  else { db with admins := db.admins ++ [owner_id] }

/-- `cmd_addadmin` (lines 258-266): silently ignored unless the requester is
`OWNER_ID`; then `INSERT OR IGNORE INTO admins`. -/
def cmd_addadmin (st : BotState) (requester : Nat) (args : List Nat)
    (owner_id : Nat) : BotState × Option Reply :=
  if requester ≠ owner_id then (st, none)
  else
    match args with
    | [] => (st, some Reply.usageAddadmin)
    | target :: _ =>
      ({ st with db :=
          { st.db with admins :=
              if st.db.admins.contains target then st.db.admins
              else st.db.admins ++ [target] } },
       some (Reply.addedAdmin target))

/-- `cmd_removeadmin` (lines 268-276): silently ignored unless the requester
is `OWNER_ID`; then `DELETE FROM admins WHERE id=target`, with no check that
the target is not the owner. -/
def cmd_removeadmin (st : BotState) (requester : Nat) (args : List Nat)
    (owner_id : Nat) : BotState × Option Reply :=
  if requester ≠ owner_id then (st, none)
  else
    match args with
    | [] => (st, some Reply.usageRemoveadmin)
    | target :: _ =>
      ({ st with db :=
          { st.db with admins := st.db.admins.filter (fun x => x != target) } },
       some (Reply.removedAdmin target))

/-! ### Restore (lines 315-337)

`fwdOk mid` tells whether `forward_message_by_id` on archived message `mid`
succeeds; the batch loop ignores the result, the single path reports
failure. -/

def handle_restore_request (st : BotState) (code : String) (fwdOk : Nat → Bool) :
    BotState × List RestoreAction :=
  match st.db.files.find? (fun r => r.code = code) with
  | some r =>
    if fwdOk r.msg_id then (st, [RestoreAction.forwardToDest r.msg_id])
    else (st, [RestoreAction.forwardToDest r.msg_id, RestoreAction.replyRestoreFailed])
  | none =>
    let rows := (st.db.items.filter (fun i => i.code = code)).map (fun i => i.msg_id)
    if rows.isEmpty then (st, [RestoreAction.replyInvalidLink])
    else
      (st, RestoreAction.announceCount rows.length ::
        (rows.map (fun mid => [RestoreAction.forwardToDest mid,
                               RestoreAction.sleepTenths 15])).flatten)

/-! ### Auto-delete sweep (lines 340-363) -/

/-- Lookup in the `meta` relation. -/
def metaLookup (db : DB) (k : String) : Option String :=
  (db.meta.find? (fun p => p.1 = k)).map (fun p => p.2)

/-- Python `str.isdigit()` on the stored value: nonempty and all digits. -/
def pyIsDigit (s : String) : Bool :=
  s ≠ "" && s.toList.all Char.isDigit

/-- Python `int(v)` for an all-digit string: base-10 value of the digits. -/
def pyInt (s : String) : Nat :=
  s.toList.foldl (fun acc c => acc * 10 + (c.toNat - '0'.toNat)) 0

/-- The deletion body of one cycle of `auto_delete_loop`, given the current
time `now_ts` and the resolved `delay` (lines 352-362): delete every `files`
row whose code matches an outdated file, and for every outdated batch delete
its `batches` row and every `items` row sharing its code. -/
def sweep (db : DB) (now_ts : Int) (delay : Int) : DB :=
  let expiredFileCodes :=
    (db.files.filter (fun r => decide (now_ts - r.created_at > delay))).map (fun r => r.code)
  let expiredBatchCodes :=
    (db.batches.filter (fun b => decide (now_ts - b.created_at > delay))).map (fun b => b.code)
  { db with
    files := db.files.filter (fun r => !(expiredFileCodes.contains r.code)),
    batches := db.batches.filter (fun b => !(expiredBatchCodes.contains b.code)),
    items := db.items.filter (fun i => !(expiredBatchCodes.contains i.code)) }

/-- One full cycle of `auto_delete_loop` (lines 341-363): read the
`auto_delete_enabled` flag, resolve the delay from `auto_delete_seconds`
(falling back to the `AUTO_DELETE` environment value when the stored value
is not all digits), skip when disabled or when the delay is 0 (falsy), and
otherwise run the deletion body. -/
def sweep_cycle (db : DB) (auto_delete_env : Int) (now_ts : Int) : DB :=
  let enabled :=
    match metaLookup db "auto_delete_enabled" with
    | some v => v == "1"
    | none => false
  if enabled then
    let delay : Int :=
      match metaLookup db "auto_delete_seconds" with
      | some v => if pyIsDigit v then ((pyInt v : Nat) : Int) else auto_delete_env
      | none => auto_delete_env
    if delay = 0 then db else sweep db now_ts delay
  else db

/-! ### Concrete fixtures used by the claim theorems and witnesses -/

/-- A plain document message with a caption (no text, so not a command). -/
def msgDocW : Msg :=
  { text := none, caption := some "hello", document := true, photo := false,
    video := false, audio := false, voice := false, sticker := false,
    animation := false }

/-- The empty database. -/
def dbEmpty : DB := { files := [], batches := [], items := [], admins := [], meta := [] }

/-- A database that already holds a batch (with one item) under code
`AAAAAAAA`, the code the generator produces when every draw is 0. -/
def dbC1 : DB :=
  { files := [], batches := [⟨"AAAAAAAA", 1, 0, 1⟩], items := [⟨"AAAAAAAA", 42, 1⟩],
    admins := [1], meta := [] }

/-- User 2 is awaiting a single capture over `dbC1`. -/
def stC1 : BotState := { db := dbC1, filestore_mode := [2], batch_mode := [] }

/-- State after first-run seeding with `OWNER_ID = 5`. -/
def stC2 : BotState :=
  { db := seed_owner dbEmpty 5, filestore_mode := [], batch_mode := [] }

/-- User 2 awaiting a single capture over an empty database. -/
def stC3 : BotState := { db := dbEmpty, filestore_mode := [2], batch_mode := [] }

/-- A database whose only content is admin user 3. -/
def dbAdm3 : DB := { files := [], batches := [], items := [], admins := [3], meta := [] }

/-- Admin 3 has an open batch session holding message ids 4 and 9 in capture
order. -/
def stC4 : BotState := { db := dbAdm3, filestore_mode := [], batch_mode := [(3, [4, 9])] }

/-- A stored file owned by user 2 under code `OLDCODE1`. -/
def rowOld : FileRow :=
  { code := "OLDCODE1", msg_id := 5, owner := 2, created_at := 3, caption := "hi",
    file_type := "document" }

/-- State holding just `rowOld`. -/
def stC5 : BotState :=
  { db := { files := [rowOld], batches := [], items := [], admins := [], meta := [] },
    filestore_mode := [], batch_mode := [] }

/-- A database with one file created at `t = 0` and auto-delete enabled with
`ttl_seconds = 100` in `meta`. -/
def dbTtl : DB :=
  { files := [⟨"CODE1234", 7, 2, 0, "", "document"⟩], batches := [], items := [],
    admins := [], meta := [("auto_delete_enabled", "1"), ("auto_delete_seconds", "100")] }

/-- State after one auto-delete cycle over `dbTtl` at time `now`. -/
def stSwept (now : Int) : BotState :=
  { db := sweep_cycle dbTtl 0 now, filestore_mode := [], batch_mode := [] }

/-- Admin 3 has an open batch session with no captured items. -/
def stC7 : BotState := { db := dbAdm3, filestore_mode := [], batch_mode := [(3, [])] }

/-- A state in which user 2 is not an admin and has no session. -/
def stC8 : BotState := { db := dbAdm3, filestore_mode := [], batch_mode := [] }

/-- Admin 3 has an open batch session holding message id 4. -/
def stC10 : BotState := { db := dbAdm3, filestore_mode := [], batch_mode := [(3, [4])] }

/-! ### Claim theorems -/

/-- Claim C1.  The claim says every freshly generated code is checked
against the registry (files and batches) before acceptance, retrying on
collision, so no two References/Batches ever share a code.  The code has no
such check: `gen_code` is a bare random draw and the capture path inserts
its output directly.  Evaluating the pipeline at a registry that already
holds batch code `AAAAAAAA`, with generator draws producing `AAAAAAAA`,
leaves a file row and a batch row sharing that code — the uniqueness
invariant is violated, refuting the claim. -/
theorem c1_issuance_skips_uniqueness_check :
    gen_code (fun _ => 0) 8 = "AAAAAAAA" ∧
    ((message_handler stC1 2 msgDocW (some 7) (gen_code (fun _ => 0) 8) 50).1.db.files.any
      (fun r => r.code = "AAAAAAAA") = true) ∧
    ((message_handler stC1 2 msgDocW (some 7) (gen_code (fun _ => 0) 8) 50).1.db.batches.any
      (fun b => b.code = "AAAAAAAA") = true) := by
  refine ⟨by decide, by decide, by decide⟩

/-- Claim C2.  The claim says the admin-removal operation never removes the
owner.  In the code, `cmd_removeadmin` only checks that the *requester* is
the owner and then deletes the target unconditionally: with `OWNER_ID = 5`
seeded at first run, the request `removeadmin 5` issued by user 5 deletes
the owner from the admin set, refuting the claim. -/
theorem c2_owner_removed_by_removeadmin :
    (seed_owner dbEmpty 5).admins = [5] ∧
    ((cmd_removeadmin stC2 5 [5] 5).1.db.admins = []) := by decide

theorem lookupBatch_eraseBatch (mm : List (Nat × List Nat)) (uid : Nat) :
    lookupBatch (eraseBatch mm uid) uid = none := by
  induction mm with
  | nil => rfl
  | cons p rest ih =>
    obtain ⟨k, v⟩ := p
    by_cases h : k = uid
    · simpa [eraseBatch, List.filter_cons, h] using ih
    · simpa [eraseBatch, lookupBatch, List.filter_cons, h] using ih

theorem filter_append_eq_right {α} (p : α → Bool) (l1 l2 : List α)
    (h1 : ∀ a ∈ l1, p a = false) (h2 : ∀ a ∈ l2, p a = true) :
    (l1 ++ l2).filter p = l2 := by
  rw [List.filter_append, List.filter_eq_nil_iff.mpr (by simpa using h1),
      List.filter_eq_self.mpr h2, List.nil_append]

theorem restore_actions_congr (st1 st2 : BotState) (code : String) (fwdOk : Nat → Bool)
    (hf : st1.db.files = st2.db.files) (hi : st1.db.items = st2.db.items) :
    (handle_restore_request st1 code fwdOk).2 = (handle_restore_request st2 code fwdOk).2 := by
  unfold handle_restore_request
  rw [hf, hi]
  cases h : st2.db.files.find? (fun r => r.code = code) with
  | some r => dsimp only; split <;> rfl
  | none => dsimp only; split <;> rfl

/-- Claim C9.  Restore is read-only: for every state, code, and forward
outcome, `handle_restore_request` returns the state unchanged — the files,
batches, and items relations are identical before and after, whether the
code resolves to a single file, to batch items, or to nothing, and whether
the replay succeeds or fails. -/
theorem c9_restore_is_read_only (st : BotState) (code : String) (fwdOk : Nat → Bool) :
    (handle_restore_request st code fwdOk).1 = st := by
  unfold handle_restore_request
  cases h : st.db.files.find? (fun r => r.code = code) with
  | some r => dsimp only; split <;> rfl
  | none => dsimp only; split <;> rfl

/-- Claim C8.  Batch capture is admin-gated while single capture and
restore are not: a non-admin invoking `cmd_batch` gets the denial reply and
the state (in particular the session dicts) is unchanged; the same user can
still start a single capture via `cmd_filestore`; and the restore actions
are independent of the admin registry. -/
theorem c8_batch_capture_admin_gated (st : BotState) (uid : Nat)
    (h : is_admin st.db uid = false) :
    cmd_batch st uid = (st, some Reply.adminsOnly) ∧
    ((cmd_filestore st uid).2 = Reply.sendSinglePrompt ∧
      uid ∈ (cmd_filestore st uid).1.filestore_mode) ∧
    (∀ code fwdOk admins2,
      (handle_restore_request { st with db := { st.db with admins := admins2 } } code fwdOk).2 =
        (handle_restore_request st code fwdOk).2) := by
  refine ⟨?_, ⟨rfl, ?_⟩, ?_⟩
  · simp [cmd_batch, h]
  · by_cases hc : uid ∈ st.filestore_mode
    · simp [cmd_filestore, hc]
    · simp [cmd_filestore, hc]
  · intro code fwdOk admins2
    exact restore_actions_congr _ _ code fwdOk rfl rfl

/-- Claim C7.  Finalizing a batch session with zero accumulated items
reports the empty-batch error, discards the session (the user has no batch
session afterwards), and leaves the database untouched (no batch row, no
item rows); moreover a saved-batch reply is only ever produced from a
non-empty session. -/
theorem c7_empty_batch_rejected (st : BotState) (uid : Nat) (fresh : String) (now : Int)
    (hadmin : is_admin st.db uid = true)
    (hsession : lookupBatch st.batch_mode uid = some []) :
    (cmd_batchdone st uid fresh now =
      ({ st with batch_mode := eraseBatch st.batch_mode uid }, Reply.batchEmpty)) ∧
    lookupBatch (eraseBatch st.batch_mode uid) uid = none ∧
    (∀ st2 uid2 fresh2 now2,
      (cmd_batchdone st2 uid2 fresh2 now2).2 = Reply.batchSaved fresh2 →
      ∃ its, lookupBatch st2.batch_mode uid2 = some its ∧ its ≠ []) := by
  refine ⟨?_, lookupBatch_eraseBatch st.batch_mode uid, ?_⟩
  · simp [cmd_batchdone, hadmin, hsession]
  · intro st2 uid2 fresh2 now2 hr
    unfold cmd_batchdone at hr
    by_cases ha : is_admin st2.db uid2
    · rw [if_pos ha] at hr
      cases hl : lookupBatch st2.batch_mode uid2 with
      | none => rw [hl] at hr; exact absurd hr (by simp)
      | some its =>
        refine ⟨its, rfl, ?_⟩
        intro hnil
        subst hnil
        rw [hl] at hr
        simp at hr
    · rw [if_neg ha] at hr; exact absurd hr (by simp)

/-- Claim C10 (implicit).  During batch accumulation a content item whose
forward to the archive fails is silently dropped: the state (including the
session's item list) is unchanged and no reply is sent.  Consequently the
finalized batch records `item_count = mids.length` and stores exactly that
many item rows under its code. -/
theorem c10_batch_failed_item_dropped (st : BotState) (uid : Nat) (m : Msg)
    (fresh : String) (now : Int) (mids : List Nat)
    (hcmd : isCommandText m = false)
    (hsingle : uid ∉ st.filestore_mode)
    (hbatch : lookupBatch st.batch_mode uid = some mids) :
    message_handler st uid m none fresh now = (st, none) ∧
    (∀ fresh2 now2, is_admin st.db uid = true →
      (∀ i ∈ st.db.items, i.code ≠ fresh2) →
      mids ≠ [] →
      (cmd_batchdone st uid fresh2 now2).1.db.batches =
        st.db.batches ++ [⟨fresh2, uid, now2, mids.length⟩] ∧
      ((cmd_batchdone st uid fresh2 now2).1.db.items.filter
          (fun i => i.code = fresh2)).length = mids.length) := by
  constructor
  · simp [message_handler, hcmd, hsingle, hbatch]
  · intro fresh2 now2 hadmin hitems hne
    have hni : mids.isEmpty = false := by simpa [List.isEmpty_iff] using hne
    constructor
    · simp [cmd_batchdone, hadmin, hbatch, hni]
    · have hit : (cmd_batchdone st uid fresh2 now2).1.db.items =
          st.db.items ++ mids.map (fun mid => ⟨fresh2, mid, uid⟩) := by
        simp [cmd_batchdone, hadmin, hbatch, hni]
      rw [hit, filter_append_eq_right _ _ _ ?_ ?_, List.length_map]
      · intro i hi
        simpa using hitems i hi
      · intro i hi
        obtain ⟨mid, _, hmk⟩ := List.mem_map.mp hi
        subst hmk
        simp

/-- Claim C4.  Order-preserving round-trip: finalizing a batch session
whose items were captured in order `mids` and then restoring the batch's
code replays the archive pointers in exactly that order, with the fixed
1.5 s pause after each item — the produced action list is the count
announcement followed by forward/pause pairs in capture order. -/
theorem c4_batch_restore_order (st : BotState) (uid : Nat) (mids : List Nat)
    (fresh : String) (now : Int) (fwdOk : Nat → Bool)
    (hadmin : is_admin st.db uid = true)
    (hsession : lookupBatch st.batch_mode uid = some mids)
    (hne : mids ≠ [])
    (hfile : ∀ r ∈ st.db.files, r.code ≠ fresh)
    (hitems : ∀ i ∈ st.db.items, i.code ≠ fresh) :
    (handle_restore_request (cmd_batchdone st uid fresh now).1 fresh fwdOk).2 =
      RestoreAction.announceCount mids.length ::
        (mids.map (fun mid => [RestoreAction.forwardToDest mid,
                               RestoreAction.sleepTenths 15])).flatten := by
  have hni : mids.isEmpty = false := by simpa [List.isEmpty_iff] using hne
  have hfiles : (cmd_batchdone st uid fresh now).1.db.files = st.db.files := by
    simp [cmd_batchdone, hadmin, hsession, hni]
  have hit : (cmd_batchdone st uid fresh now).1.db.items =
      st.db.items ++ mids.map (fun mid => ⟨fresh, mid, uid⟩) := by
    simp [cmd_batchdone, hadmin, hsession, hni]
  unfold handle_restore_request
  rw [hfiles, hit]
  rw [List.find?_eq_none.mpr (by intro r hr; simpa using hfile r hr)]
  dsimp only
  rw [filter_append_eq_right _ _ _ (by intro i hi; simpa using hitems i hi)
      (by intro i hi; obtain ⟨mid, _, hmk⟩ := List.mem_map.mp hi; subst hmk; simp)]
  have hrows : (mids.map (fun mid => (⟨fresh, mid, uid⟩ : ItemRow))).map
      (fun i => i.msg_id) = mids := by
    simp [List.map_map]
    exact List.map_id mids
  rw [hrows]
  rw [if_neg (by simp [hne])]

theorem find?_rename_old_none (files : List FileRow) (old new : String) (hne : new ≠ old) :
    (files.map (fun r => if r.code = old then { r with code := new } else r)).find?
      (fun r => r.code = old) = none := by
  apply List.find?_eq_none.mpr
  intro x hx
  obtain ⟨r, _, hmk⟩ := List.mem_map.mp hx
  subst hmk
  by_cases h : r.code = old
  · simp [h, hne]
  · simp [h]

theorem find?_rename_new (files : List FileRow) (old new : String) (r : FileRow)
    (hnew : ∀ x ∈ files, x.code ≠ new)
    (hfind : files.find? (fun x => x.code = old) = some r) :
    (files.map (fun x => if x.code = old then { x with code := new } else x)).find?
      (fun x => x.code = new) = some { r with code := new } := by
  induction files with
  | nil => simp at hfind
  | cons f fs ih =>
    by_cases h : f.code = old
    · rw [List.find?_cons_of_pos _ (by simpa using h)] at hfind
      injection hfind with hfr
      subst hfr
      simp only [List.map_cons, h, if_pos rfl]
      exact List.find?_cons_of_pos _ (by simp)
    · rw [List.find?_cons_of_neg _ (by simpa using h)] at hfind
      simp only [List.map_cons, if_neg h]
      rw [List.find?_cons_of_neg _ (by simpa using hnew f (List.mem_cons_self f fs))]
      exact ih (fun x hx => hnew x (List.mem_cons_of_mem f hx)) hfind

/-- Claim C5.  Rename correctness: if the requested new code is already
used by any file or batch, `cmd_setcode` fails with the duplicate-code
reply and the state is unchanged; otherwise it re-keys the caller's most
recent file `old`, after which resolving `old` reports an invalid link and
resolving the new code forwards the original archive pointer. -/
theorem c5_setcode_rename_correct (st : BotState) (uid : Nat) (a : String) :
    ((st.db.files.any (fun x => x.code = pyStrip a)
        || st.db.batches.any (fun b => b.code = pyStrip a)) = true →
      cmd_setcode st uid [a] = (st, Reply.codeInUse)) ∧
    ((st.db.files.any (fun x => x.code = pyStrip a)
        || st.db.batches.any (fun b => b.code = pyStrip a)) = false →
      ∀ old r, mostRecentOwnedCode st.db uid = some old →
        st.db.files.find? (fun x => x.code = old) = some r →
        (∀ i ∈ st.db.items, i.code ≠ old) →
        (handle_restore_request st old (fun _ => true)).2 =
          [RestoreAction.forwardToDest r.msg_id] ∧
        (handle_restore_request (cmd_setcode st uid [a]).1 old (fun _ => true)).2 =
          [RestoreAction.replyInvalidLink] ∧
        (handle_restore_request (cmd_setcode st uid [a]).1 (pyStrip a) (fun _ => true)).2 =
          [RestoreAction.forwardToDest r.msg_id]) := by
  constructor
  · intro hdup
    simp [cmd_setcode, hdup]
  · intro hfalse old r hmost hfind hold
    have hanyf : st.db.files.any (fun x => x.code = pyStrip a) = false :=
      (Bool.or_eq_false_iff.mp hfalse).1
    have hnew : ∀ x ∈ st.db.files, x.code ≠ pyStrip a := by
      intro x hx
      simpa using List.any_eq_false.mp hanyf x hx
    have hrold : r.code = old := by simpa using List.find?_some hfind
    have hrmem : r ∈ st.db.files := List.mem_of_find?_eq_some hfind
    have hneq : pyStrip a ≠ old := by
      intro h
      exact hnew r hrmem (hrold.trans h.symm)
    have hst1 : (cmd_setcode st uid [a]).1.db.files =
        st.db.files.map (fun x => if x.code = old then { x with code := pyStrip a } else x) := by
      simp [cmd_setcode, hfalse, hmost]
    have hst2 : (cmd_setcode st uid [a]).1.db.items = st.db.items := by
      simp [cmd_setcode, hfalse, hmost]
    refine ⟨?_, ?_, ?_⟩
    · unfold handle_restore_request
      rw [hfind]
      simp
    · unfold handle_restore_request
      rw [hst1, hst2]
      rw [find?_rename_old_none _ _ _ hneq]
      dsimp only
      rw [List.filter_eq_nil_iff.mpr (by intro i hi; simpa using hold i hi)]
      simp
    · unfold handle_restore_request
      rw [hst1]
      rw [find?_rename_new _ _ _ _ hnew hfind]
      simp

theorem filter_not_expired_codes {α} (code : α → String) (created : α → Int)
    (l : List α) (now ttl : Int) (hn : (l.map code).Nodup) :
    l.filter (fun x =>
        !(((l.filter (fun y => decide (now - created y > ttl))).map code).contains (code x))) =
      l.filter (fun x => decide (now - created x ≤ ttl)) := by
  apply List.filter_congr
  intro x hx
  by_cases hexp : now - created x > ttl
  · have hmem : code x ∈ (l.filter (fun y => decide (now - created y > ttl))).map code :=
      List.mem_map.mpr ⟨x, List.mem_filter.mpr ⟨hx, by simpa using hexp⟩, rfl⟩
    have hcon : ((l.filter (fun y => decide (now - created y > ttl))).map code).contains
        (code x) = true := by
      simpa [List.elem_iff] using hmem
    rw [hcon]
    simp [not_le.mpr hexp]
  · have hcon : ((l.filter (fun y => decide (now - created y > ttl))).map code).contains
        (code x) = false := by
      rw [Bool.eq_false_iff]
      intro hc
      have hmem : code x ∈ (l.filter (fun y => decide (now - created y > ttl))).map code := by
        simpa [List.elem_iff] using hc
      obtain ⟨y, hy, he⟩ := List.mem_map.mp hmem
      have hye : now - created y > ttl := by simpa using (List.mem_filter.mp hy).2
      have hyx : y = x := List.inj_on_of_nodup_map hn (List.mem_of_mem_filter hy) hx he
      rw [hyx] at hye
      exact hexp hye
    rw [hcon]
    simp [not_lt.mp hexp]

/-- Claim C6.  Expiry semantics: a sweep at time `now` with ttl `ttl`
keeps exactly the files and batches with `now - created_at ≤ ttl`, i.e.
removes exactly those with `created_at < now - ttl`; an expired batch loses
all its item rows (no orphans) while a surviving batch keeps its item rows
unchanged; concretely, with `ttl_seconds = 100` a file created at `t = 0`
still resolves after a sweep cycle at `t = 99` and no longer resolves after
a sweep cycle at `t = 101`. -/
theorem c6_expiry_sweep_exact (db : DB) (now ttl : Int)
    (hfn : (db.files.map (fun r => r.code)).Nodup)
    (hbn : (db.batches.map (fun b => b.code)).Nodup) :
    ((sweep db now ttl).files =
      db.files.filter (fun r => decide (now - r.created_at ≤ ttl))) ∧
    ((sweep db now ttl).batches =
      db.batches.filter (fun b => decide (now - b.created_at ≤ ttl))) ∧
    (∀ b ∈ db.batches, now - b.created_at > ttl →
      ∀ i ∈ (sweep db now ttl).items, i.code ≠ b.code) ∧
    (∀ b ∈ db.batches, now - b.created_at ≤ ttl →
      (sweep db now ttl).items.filter (fun i => i.code = b.code) =
        db.items.filter (fun i => i.code = b.code)) ∧
    ((handle_restore_request (stSwept 99) "CODE1234" (fun _ => true)).2 =
      [RestoreAction.forwardToDest 7]) ∧
    ((handle_restore_request (stSwept 101) "CODE1234" (fun _ => true)).2 =
      [RestoreAction.replyInvalidLink]) := by
  refine ⟨?_, ?_, ?_, ?_, by decide, by decide⟩
  · exact filter_not_expired_codes (fun r => r.code) (fun r => r.created_at) db.files now ttl hfn
  · exact filter_not_expired_codes (fun b => b.code) (fun b => b.created_at) db.batches now ttl hbn
  · intro b hb hexp i hi
    have hi2 : i ∈ db.items.filter
        (fun j => !(((db.batches.filter (fun y => decide (now - y.created_at > ttl))).map
          (fun c => c.code)).contains j.code)) := hi
    have hkeep := (List.mem_filter.mp hi2).2
    intro hcode
    have hmem : b.code ∈ (db.batches.filter (fun y => decide (now - y.created_at > ttl))).map
        (fun c => c.code) :=
      List.mem_map.mpr ⟨b, List.mem_filter.mpr ⟨hb, by simpa using hexp⟩, rfl⟩
    have hcon : ((db.batches.filter (fun y => decide (now - y.created_at > ttl))).map
        (fun c => c.code)).contains b.code = true := by
      simpa [List.elem_iff] using hmem
    rw [hcode, hcon] at hkeep
    simp at hkeep
  · intro b hb hle
    have hnotin : ((db.batches.filter (fun y => decide (now - y.created_at > ttl))).map
        (fun c => c.code)).contains b.code = false := by
      rw [Bool.eq_false_iff]
      intro hc
      have hmem : b.code ∈ (db.batches.filter (fun y => decide (now - y.created_at > ttl))).map
          (fun c => c.code) := by
        simpa [List.elem_iff] using hc
      obtain ⟨y, hy, he⟩ := List.mem_map.mp hmem
      have hye : now - y.created_at > ttl := by simpa using (List.mem_filter.mp hy).2
      have hyx : y = b := List.inj_on_of_nodup_map hbn (List.mem_of_mem_filter hy) hb he
      rw [hyx] at hye
      exact absurd hye (not_lt.mpr hle)
    have hs : (sweep db now ttl).items = db.items.filter
        (fun j => !(((db.batches.filter (fun y => decide (now - y.created_at > ttl))).map
          (fun c => c.code)).contains j.code)) := rfl
    rw [hs, List.filter_filter]
    apply List.filter_congr
    intro i _
    by_cases hc : i.code = b.code
    · rw [hc, hnotin]
      simp
    · simp [hc]

theorem not_mem_filter_ne_self (l : List Nat) (uid : Nat) :
    uid ∉ l.filter (fun x => x != uid) := by
  intro h
  have h2 := (List.mem_filter.mp h).2
  simp at h2

/-- Claim C3.  After a user enters AWAITING_SINGLE (their id is in
filestore_mode), any first content item consumes the session: the id is
removed from filestore_mode whether the forward succeeds or fails; on
failure the database is untouched and the failure is reported; on success
exactly the one captured row is appended; and once the session is consumed
a second content item from the same user (with no batch session open)
changes nothing in the database. -/
theorem c3_single_capture_consumes_session (st : BotState) (uid : Nat) (m : Msg)
    (fwd : Option Nat) (fresh : String) (now : Int)
    (hcmd : isCommandText m = false)
    (hmode : uid ∈ st.filestore_mode) :
    (uid ∉ (message_handler st uid m fwd fresh now).1.filestore_mode) ∧
    (fwd = none →
      message_handler st uid m fwd fresh now =
        ({ st with filestore_mode := st.filestore_mode.filter (fun x => x != uid) },
         some Reply.storeFailed)) ∧
    (∀ mid, fwd = some mid →
      (message_handler st uid m fwd fresh now).1.db.files =
        st.db.files ++ [capturedRow uid m mid fresh now]) ∧
    (lookupBatch st.batch_mode uid = none →
      ∀ m2 fwd2 fresh2 now2,
        (message_handler (message_handler st uid m fwd fresh now).1 uid m2 fwd2 fresh2 now2).1.db =
          (message_handler st uid m fwd fresh now).1.db) := by
  refine ⟨?_, ?_, ?_, ?_⟩
  · cases fwd <;> simp [message_handler, hcmd, hmode, not_mem_filter_ne_self]
  · intro h; subst h; simp [message_handler, hcmd, hmode]
  · intro mid h; subst h; simp [message_handler, hcmd, hmode]
  · intro hb m2 fwd2 fresh2 now2
    have h1 : uid ∉ (message_handler st uid m fwd fresh now).1.filestore_mode := by
      cases fwd <;> simp [message_handler, hcmd, hmode, not_mem_filter_ne_self]
    have h2 : (message_handler st uid m fwd fresh now).1.batch_mode = st.batch_mode := by
      cases fwd <;> simp [message_handler, hcmd, hmode]
    generalize hg : (message_handler st uid m fwd fresh now).1 = st2 at h1 h2 ⊢
    by_cases hc2 : isCommandText m2
    · simp [message_handler, hc2]
    · cases fwd2 <;> simp [message_handler, hc2, h1, h2, hb]

/-- Witness for C3 at a concrete input: user 2 is awaiting a single capture,
the capture succeeds, and afterwards the session is consumed. -/
theorem c3_single_capture_consumes_session_witness :
    isCommandText msgDocW = false ∧ 2 ∈ stC3.filestore_mode ∧
    2 ∉ (message_handler stC3 2 msgDocW (some 7) "CODE0001" 10).1.filestore_mode :=
  ⟨by decide, by decide,
   (c3_single_capture_consumes_session stC3 2 msgDocW (some 7) "CODE0001" 10
     (by decide) (by decide)).1⟩

/-- Witness for C4 at a concrete input: a batch captured as [4, 9] restores
as announce-2, forward 4, pause, forward 9, pause. -/
theorem c4_batch_restore_order_witness :
    is_admin stC4.db 3 = true ∧ lookupBatch stC4.batch_mode 3 = some [4, 9] ∧
    (handle_restore_request (cmd_batchdone stC4 3 "BATCH001" 20).1 "BATCH001"
        (fun _ => true)).2 =
      [RestoreAction.announceCount 2, RestoreAction.forwardToDest 4,
       RestoreAction.sleepTenths 15, RestoreAction.forwardToDest 9,
       RestoreAction.sleepTenths 15] :=
  ⟨by decide, by decide,
   c4_batch_restore_order stC4 3 [4, 9] "BATCH001" 20 (fun _ => true)
     (by decide) (by decide) (by decide) (by decide) (by decide)⟩

/-- Witness for C5 at a concrete input: renaming user 2's file `OLDCODE1` to
`NEWCODE1` makes the old code unresolvable and the new one resolve to the
original pointer 5. -/
theorem c5_setcode_rename_correct_witness :
    ((stC5.db.files.any (fun x => x.code = pyStrip "NEWCODE1")
        || stC5.db.batches.any (fun b => b.code = pyStrip "NEWCODE1")) = false) ∧
    mostRecentOwnedCode stC5.db 2 = some "OLDCODE1" ∧
    ((handle_restore_request (cmd_setcode stC5 2 ["NEWCODE1"]).1 "OLDCODE1"
        (fun _ => true)).2 = [RestoreAction.replyInvalidLink] ∧
      (handle_restore_request (cmd_setcode stC5 2 ["NEWCODE1"]).1 (pyStrip "NEWCODE1")
        (fun _ => true)).2 = [RestoreAction.forwardToDest 5]) :=
  ⟨by decide, by decide,
   ((c5_setcode_rename_correct stC5 2 "NEWCODE1").2 (by decide) "OLDCODE1" rowOld
     (by decide) (by decide) (by decide)).2⟩

/-- Witness for C6 at a concrete input: the sweep keeps exactly the
non-expired files of `dbTtl`. -/
theorem c6_expiry_sweep_exact_witness :
    ((dbTtl.files.map (fun r => r.code)).Nodup ∧
      (dbTtl.batches.map (fun b => b.code)).Nodup) ∧
    (sweep dbTtl 99 100).files =
      dbTtl.files.filter (fun r => decide ((99 : Int) - r.created_at ≤ 100)) :=
  ⟨⟨by decide, by decide⟩,
   (c6_expiry_sweep_exact dbTtl 99 100 (by decide) (by decide)).1⟩

/-- Witness for C7 at a concrete input: admin 3 finalizes an empty batch
session; the session is discarded and the database untouched. -/
theorem c7_empty_batch_rejected_witness :
    is_admin stC7.db 3 = true ∧ lookupBatch stC7.batch_mode 3 = some [] ∧
    cmd_batchdone stC7 3 "BATCH002" 30 =
      ({ stC7 with batch_mode := eraseBatch stC7.batch_mode 3 }, Reply.batchEmpty) :=
  ⟨by decide, by decide,
   (c7_empty_batch_rejected stC7 3 "BATCH002" 30 (by decide) (by decide)).1⟩

/-- Witness for C8 at a concrete input: non-admin user 2 is refused batch
mode and the state is unchanged. -/
theorem c8_batch_capture_admin_gated_witness :
    is_admin stC8.db 2 = false ∧
    cmd_batch stC8 2 = (stC8, some Reply.adminsOnly) :=
  ⟨by decide, (c8_batch_capture_admin_gated stC8 2 (by decide)).1⟩

/-- Witness for C10 at a concrete input: a failed forward during admin 3's
batch session leaves the state unchanged and sends no reply. -/
theorem c10_batch_failed_item_dropped_witness :
    isCommandText msgDocW = false ∧ 3 ∉ stC10.filestore_mode ∧
    lookupBatch stC10.batch_mode 3 = some [4] ∧
    message_handler stC10 3 msgDocW none "CODE0002" 40 = (stC10, none) :=
  ⟨by decide, by decide, by decide,
   (c10_batch_failed_item_dropped stC10 3 msgDocW "CODE0002" 40 [4]
     (by decide) (by decide) (by decide)).1⟩
